import Mathlib

/-!
# Verification of the Progress Engine of `bot.py`

A shallow embedding of the data model and core operations of `src/bot.py`
(the "Спутник дня" progress tracker): the event logs, the points table,
the stats aggregation (`collect_stats`), the goal evaluation loop of
`claim`, the sale-logging flow of `log_text`, and the job (re)registration
functions `schedule_sport_jobs` / `schedule_weekly_report`.

Timestamps: `bot.py` stores `datetime.utcnow().isoformat()` strings and
compares them with SQL `>=` / `<=`; for same-format ISO strings this is
chronological order, so instants are modelled as integers (seconds),
with `daySecs` standing for `timedelta(days=1)`.

SQLite tables become Lean lists of rows; `INSERT` prepends a row (all
aggregations are order-independent), `UPDATE ... WHERE user_id=?` maps
over the list, `SELECT ... fetchone` is `List.find?`.  Columns that no
modelled operation reads (`users.tz`, `users.notify`, `users.created_at`,
`log_spirit.note`, autoincrement ids of log rows) are omitted.
`sleep_hours` (SQL `REAL`) is modelled as `Rat`.
-/

namespace SputnikBot

/-- `POINTS_TRAIN = 2` (bot.py line 29). -/
def POINTS_TRAIN : Int := 2

/-- `POINTS_SALE = 10` (bot.py line 30). -/
def POINTS_SALE : Int := 10

/-- `DEFAULT_SALE_THRESHOLD = 0` (bot.py line 31). -/
def DEFAULT_SALE_THRESHOLD : Int := 0

/-- `WEEKLY_HOUR = 20` (bot.py line 33). -/
def WEEKLY_HOUR : Int := 20

/-- One day, in the integer time unit (seconds): `timedelta(days=1)`. -/
def daySecs : Int := 86400

/-- A row of `log_sport`: `(user_id, dt, type_id)`. -/
structure SportRow where
  user_id : Int
  dt : Int
  type_id : Int
deriving Repr, DecidableEq

/-- A row of `log_business`: `(user_id, dt, calls, visibility, sale_amount, cash_in)`. -/
structure BusinessRow where
  user_id : Int
  dt : Int
  calls : Int
  visibility : Int
  sale_amount : Int
  cash_in : Int
deriving Repr, DecidableEq

/-- A row of `log_spirit`: `(user_id, dt, sleep_hours, meditation_min, reading_min)`. -/
structure SpiritRow where
  user_id : Int
  dt : Int
  sleep_hours : Rat
  meditation_min : Int
  reading_min : Int
deriving Repr, DecidableEq

/-- A row of `goals` (bot.py lines 108-122). `deadline` is the instant
`datetime.strptime(deadline, "%Y-%m-%d")` — midnight at the start of the
deadline date; `created_at` the creation instant. -/
structure Goal where
  id : Int
  user_id : Int
  title : String
  reward : String
  sport_min : Int
  business_min : Int
  sales_min : Int
  spirit_min : Int
  points_min : Int
  deadline : Int
  created_at : Int
deriving Repr, DecidableEq

/-- A row of `sport_types`: `(id, user_id, name)`. -/
structure SportType where
  id : Int
  user_id : Int
  name : String
deriving Repr, DecidableEq

/-- A row of `sport_schedule`: `(user_id, type_id, dow, at_time)` with
the `'HH:MM'` time-of-day string kept verbatim. -/
structure SchedRow where
  user_id : Int
  type_id : Int
  dow : Int
  at_time : String
deriving Repr, DecidableEq

/-- The database: one list per table.  `points` holds `(user_id, value)`
rows; `users` holds `(user_id, sale_threshold)` rows. -/
structure DB where
  users : List (Int × Int)
  points : List (Int × Int)
  log_sport : List SportRow
  log_business : List BusinessRow
  log_spirit : List SpiritRow
  goals : List Goal
  sport_types : List SportType
  sport_schedule : List SchedRow
deriving Repr, DecidableEq

/-- A database with no rows at all. -/
def emptyDB : DB := ⟨[], [], [], [], [], [], [], []⟩

/-- `ensure_user` (bot.py lines 126-134): insert a `users` row and a zero
`points` row when the user is absent. -/
def ensure_user (db : DB) (uid : Int) : DB :=
  if db.users.any (fun r => r.1 == uid) then db
  else { db with
           users := (uid, DEFAULT_SALE_THRESHOLD) :: db.users
           points := (uid, 0) :: db.points }

/-- `add_points` (bot.py lines 136-141): `UPDATE points SET value=value+?
WHERE user_id=?` — adds to every matching row, does nothing when no row
matches. -/
def add_points (db : DB) (uid : Int) (pts : Int) : DB :=
  { db with points := db.points.map (fun r => if r.1 == uid then (r.1, r.2 + pts) else r) }

/-- `get_points` (bot.py lines 143-149): first matching row's value, `0`
when the user has no `points` row. -/
def get_points (db : DB) (uid : Int) : Int :=
  match db.points.find? (fun r => r.1 == uid) with
  | some r => r.2
  | none => 0

/-- `get_sale_threshold` (bot.py lines 163-169). -/
def get_sale_threshold (db : DB) (uid : Int) : Int :=
  match db.users.find? (fun r => r.1 == uid) with
  | some r => r.2
  | none => DEFAULT_SALE_THRESHOLD

/-- The user has a `points` row (`ensure_user` creates one). -/
def hasPointsRow (db : DB) (uid : Int) : Prop :=
  db.points.any (fun r => r.1 == uid) = true

instance (db : DB) (uid : Int) : Decidable (hasPointsRow db uid) := by
  unfold hasPointsRow; infer_instance

/-- The aggregate record `collect_stats` returns (bot.py lines 196-207). -/
structure Stats where
  sport_cnt : Int
  calls : Int
  vis : Int
  sales_n : Int
  sales_sum : Int
  cash_sum : Int
  sleep : Rat
  med : Int
  read : Int
  points : Int
deriving Repr, DecidableEq

/-- `collect_stats` (bot.py lines 183-207): aggregates over rows with
`user_id = uid` and `dt >= now - days` (inclusive lower bound, no upper
bound), plus the cumulative `get_points` value. -/
def collect_stats (db : DB) (uid : Int) (days : Int) (now : Int) : Stats :=
  let since := now - days * daySecs
  let sport := db.log_sport.filter (fun r => r.user_id == uid && since ≤ r.dt)
  let biz := db.log_business.filter (fun r => r.user_id == uid && since ≤ r.dt)
  let spi := db.log_spirit.filter (fun r => r.user_id == uid && since ≤ r.dt)
  { sport_cnt := sport.length
  , calls := (biz.map (fun r => r.calls)).sum
  , vis := (biz.map (fun r => r.visibility)).sum
  , sales_n := (biz.filter (fun r => 0 < r.sale_amount)).length
  , sales_sum := (biz.map (fun r => r.sale_amount)).sum
  , cash_sum := (biz.map (fun r => r.cash_in)).sum
  , sleep := (spi.map (fun r => r.sleep_hours)).sum
  , med := (spi.map (fun r => r.meditation_min)).sum
  , read := (spi.map (fun r => r.reading_min)).sum
  , points := get_points db uid }

/-! ## Logging handlers

The core of `log_cb` (bot.py lines 567-602) and `log_text` (lines
604-652): each user action inserts one row into the matching log table;
a sport log also awards `POINTS_TRAIN`, a sale awards `POINTS_SALE`
exactly when the amount reaches the user's threshold. -/

/-- `log_cb`, branch `log_sport:` (bot.py lines 571-577). -/
def log_sport_event (db : DB) (uid now tid : Int) : DB :=
  add_points { db with log_sport := ⟨uid, now, tid⟩ :: db.log_sport } uid POINTS_TRAIN

/-- `log_cb`, branch `log_biz:call` (bot.py lines 578-582). -/
def log_call (db : DB) (uid now : Int) : DB :=
  { db with log_business := ⟨uid, now, 1, 0, 0, 0⟩ :: db.log_business }

/-- `log_cb`, branch `log_biz:vis` (bot.py lines 583-587). -/
def log_vis (db : DB) (uid now : Int) : DB :=
  { db with log_business := ⟨uid, now, 0, 1, 0, 0⟩ :: db.log_business }

/-- `log_text`, branch `await_cash` (bot.py lines 607-615). -/
def log_cash (db : DB) (uid now val : Int) : DB :=
  { db with log_business := ⟨uid, now, 0, 0, 0, val⟩ :: db.log_business }

/-- `log_text`, branch `await_sale` (bot.py lines 616-628): insert the
sale row, then award `POINTS_SALE` iff `val >= get_sale_threshold(uid)`. -/
def log_sale (db : DB) (uid now val : Int) : DB :=
  let db1 := { db with log_business := ⟨uid, now, 0, 0, val, 0⟩ :: db.log_business }
  if get_sale_threshold db1 uid ≤ val then add_points db1 uid POINTS_SALE else db1

/-- `log_text`, branch `await_sleep` (bot.py lines 629-636). -/
def log_sleep (db : DB) (uid now : Int) (hours : Rat) : DB :=
  { db with log_spirit := ⟨uid, now, hours, 0, 0⟩ :: db.log_spirit }

/-- `log_text`, branch `await_med` (bot.py lines 637-644). -/
def log_med (db : DB) (uid now mins : Int) : DB :=
  { db with log_spirit := ⟨uid, now, 0, mins, 0⟩ :: db.log_spirit }

/-- `log_text`, branch `await_read` (bot.py lines 645-652). -/
def log_read (db : DB) (uid now mins : Int) : DB :=
  { db with log_spirit := ⟨uid, now, 0, 0, mins⟩ :: db.log_spirit }

/-! ## Goal evaluation (`claim`, bot.py lines 717-762) -/

/-- Window filter of `claim`: `dt>=created AND dt<=deadline`. -/
def inGoalWindow (g : Goal) (uid dt : Int) (ruid : Int) : Bool :=
  ruid == uid && g.created_at ≤ dt && dt ≤ g.deadline

/-- `sport_cnt` of `claim` (bot.py lines 732-734). -/
def goalSportCnt (db : DB) (uid : Int) (g : Goal) : Int :=
  (db.log_sport.filter (fun r => inGoalWindow g uid r.dt r.user_id)).length

/-- `SUM(calls)` of `claim` (bot.py lines 735-738). -/
def goalCalls (db : DB) (uid : Int) (g : Goal) : Int :=
  ((db.log_business.filter (fun r => inGoalWindow g uid r.dt r.user_id)).map
    (fun r => r.calls)).sum

/-- `SUM(visibility)` of `claim` (bot.py lines 735-738). -/
def goalVis (db : DB) (uid : Int) (g : Goal) : Int :=
  ((db.log_business.filter (fun r => inGoalWindow g uid r.dt r.user_id)).map
    (fun r => r.visibility)).sum

/-- `business_actions = calls + vis` (bot.py line 739). -/
def goalBusinessActions (db : DB) (uid : Int) (g : Goal) : Int :=
  goalCalls db uid g + goalVis db uid g

/-- `sales_n`: windowed count of rows with `sale_amount>0` (bot.py lines 735-738). -/
def goalSalesN (db : DB) (uid : Int) (g : Goal) : Int :=
  ((db.log_business.filter (fun r => inGoalWindow g uid r.dt r.user_id)).filter
    (fun r => 0 < r.sale_amount)).length

/-- `spirit_n`: windowed count of `log_spirit` rows with
`sleep_hours>0 OR meditation_min>0 OR reading_min>0` (bot.py lines 740-743). -/
def goalSpiritN (db : DB) (uid : Int) (g : Goal) : Int :=
  ((db.log_spirit.filter (fun r => inGoalWindow g uid r.dt r.user_id)).filter
    (fun r => decide (0 < r.sleep_hours) || decide (0 < r.meditation_min)
      || decide (0 < r.reading_min))).length

/-- `ok` of `claim` (bot.py line 745): all five thresholds met. -/
def goalOk (db : DB) (uid : Int) (g : Goal) : Bool :=
  decide (g.sport_min ≤ goalSportCnt db uid g)
    && decide (g.business_min ≤ goalBusinessActions db uid g)
    && decide (g.sales_min ≤ goalSalesN db uid g)
    && decide (g.spirit_min ≤ goalSpiritN db uid g)
    && decide (g.points_min ≤ get_points db uid)

/-- The `miss` list of `claim` (bot.py lines 749-754): one
`"<dimension> <current>/<required>"` entry per unmet threshold. -/
def goalMiss (db : DB) (uid : Int) (g : Goal) : List String :=
  (if goalSportCnt db uid g < g.sport_min then
    ["спорт " ++ toString (goalSportCnt db uid g) ++ "/" ++ toString g.sport_min] else [])
  ++ (if goalBusinessActions db uid g < g.business_min then
    ["бизнес " ++ toString (goalBusinessActions db uid g) ++ "/" ++ toString g.business_min] else [])
  ++ (if goalSalesN db uid g < g.sales_min then
    ["продажи " ++ toString (goalSalesN db uid g) ++ "/" ++ toString g.sales_min] else [])
  ++ (if goalSpiritN db uid g < g.spirit_min then
    ["дух " ++ toString (goalSpiritN db uid g) ++ "/" ++ toString g.spirit_min] else [])
  ++ (if get_points db uid < g.points_min then
    ["очки " ++ toString (get_points db uid) ++ "/" ++ toString g.points_min] else [])

/-- A goal row is processed (not skipped) by `claim`'s loop: the code
skips a goal iff `now > deadline_dt + timedelta(days=1)` (bot.py lines
730-731). -/
def goalActive (g : Goal) (now : Int) : Bool :=
  !decide (g.deadline + daySecs < now)

/-- The evaluation loop of `claim` (bot.py lines 726-756).  The code
walks the user's goals once, appending a message per goal either to
`eligible` or to `missing`; here the two output lists carry the goal row
itself, with `missing` paired with the `miss` shortfall entries the
message is assembled from. -/
def evalGoals (db : DB) (uid now : Int) : List Goal × List (Goal × List String) :=
  let gs := (db.goals.filter (fun g => g.user_id == uid)).filter (fun g => goalActive g now)
  ( gs.filter (fun g => goalOk db uid g)
  , (gs.filter (fun g => !goalOk db uid g)).map (fun g => (g, goalMiss db uid g)) )

/-! ## The spec's event view (§3, §4.2)

`spec.md` describes the three log tables as one typed event log.  The
`Event` type below is the spec's §3 record; `applyEvent` maps each event
kind to the handler of `bot.py` that the corresponding user action
triggers, so a list of events generates exactly the database states the
program can produce. -/

/-- Event kinds of spec §3, with their numeric payloads. -/
inductive EvKind where
  | sport (type_id : Int)
  | call
  | visibility
  | sale (amount : Int)
  | cash (amount : Int)
  | sleep (hours : Rat)
  | meditation (minutes : Int)
  | reading (minutes : Int)
deriving Repr, DecidableEq

/-- An event of spec §3: `{user_id, kind, timestamp}`. -/
structure Event where
  user_id : Int
  dt : Int
  kind : EvKind
deriving Repr, DecidableEq

/-- Dispatch an event to the `bot.py` handler it stands for. -/
def applyEvent (db : DB) (e : Event) : DB :=
  match e.kind with
  | .sport tid => log_sport_event db e.user_id e.dt tid
  | .call => log_call db e.user_id e.dt
  | .visibility => log_vis db e.user_id e.dt
  | .sale amt => log_sale db e.user_id e.dt amt
  | .cash amt => log_cash db e.user_id e.dt amt
  | .sleep h => log_sleep db e.user_id e.dt h
  | .meditation m => log_med db e.user_id e.dt m
  | .reading m => log_read db e.user_id e.dt m

/-- The `Summary` record of spec §4.2. -/
structure Summary where
  sport_count : Int
  call_count : Int
  visibility_count : Int
  sale_count : Int
  sale_sum : Int
  cash_sum : Int
  sleep_hours : Rat
  meditation_minutes : Int
  reading_minutes : Int
deriving Repr, DecidableEq

/-- The all-zero summary. -/
def Summary.zero : Summary := ⟨0, 0, 0, 0, 0, 0, 0, 0, 0⟩

/-- Componentwise sum of summaries. -/
def Summary.add (a b : Summary) : Summary :=
  ⟨a.sport_count + b.sport_count, a.call_count + b.call_count,
   a.visibility_count + b.visibility_count, a.sale_count + b.sale_count,
   a.sale_sum + b.sale_sum, a.cash_sum + b.cash_sum,
   a.sleep_hours + b.sleep_hours, a.meditation_minutes + b.meditation_minutes,
   a.reading_minutes + b.reading_minutes⟩

/-- Modelled from the spec (§4.2): the contribution of a single event to
the reduction — "counts for SPORT/CALL/VISIBILITY/SALE-occurrence, sums
for numeric payload kinds". -/
def evContribSpec (k : EvKind) : Summary :=
  match k with
  | .sport _ => { Summary.zero with sport_count := 1 }
  | .call => { Summary.zero with call_count := 1 }
  | .visibility => { Summary.zero with visibility_count := 1 }
  | .sale amt => { Summary.zero with
                     sale_count := 1
                     sale_sum := amt }
  | .cash amt => { Summary.zero with cash_sum := amt }
  | .sleep h => { Summary.zero with sleep_hours := h }
  | .meditation m => { Summary.zero with meditation_minutes := m }
  | .reading m => { Summary.zero with reading_minutes := m }

/-- Modelled from the spec (§4.2), amended to what the code computes:
identical to `evContribSpec` except that a SALE is counted in
`sale_count` only when its amount is positive. -/
def evContribPos (k : EvKind) : Summary :=
  match k with
  | .sale amt => { Summary.zero with
                     sale_count := if 0 < amt then 1 else 0
                     sale_sum := amt }
  | k0 => evContribSpec k0

/-- Modelled from the spec (§4.2): the reduction applied to exactly the
events of `uid` with `timestamp >= since` (`since = now - W days`). -/
def summarize_spec (uid since : Int) (evs : List Event) : Summary :=
  ((evs.filter (fun e => e.user_id == uid && since ≤ e.dt)).map
    (fun e => evContribSpec e.kind)).foldr Summary.add Summary.zero

/-- The §4.2 reduction with the positive-amount sale count (the amended
form of `summarize_spec`). -/
def summarize_pos (uid since : Int) (evs : List Event) : Summary :=
  ((evs.filter (fun e => e.user_id == uid && since ≤ e.dt)).map
    (fun e => evContribPos e.kind)).foldr Summary.add Summary.zero

/-- The nine log-derived fields of a `collect_stats` result, as a spec
`Summary` (the `points` field is not part of the §4.2 summary). -/
def statsSummary (s : Stats) : Summary :=
  ⟨s.sport_cnt, s.calls, s.vis, s.sales_n, s.sales_sum, s.cash_sum,
   s.sleep, s.med, s.read⟩

/-! ## Recurring jobs (bot.py lines 765-802)

`job_queue` jobs are identified by their `name` string
(`f"sport_rem_{uid}"` / `f"weekly_{uid}"` — both injective in `uid`, so
modelled as a two-constructor inductive); `run_daily`'s trigger is the
`(days, time)` pair, with the timezone argument omitted.  The `'HH:MM'`
schedule string is kept verbatim in the job. -/

/-- A job-queue name: `sport_rem_{uid}` or `weekly_{uid}`. -/
inductive JobName where
  | sportRem (uid : Int)
  | weekly (uid : Int)
deriving Repr, DecidableEq

/-- The `data` payload passed to `run_daily`. -/
inductive JobData where
  | remind (uid : Int) (text : String)
  | weeklyReport (uid : Int)
deriving Repr, DecidableEq

/-- One scheduled job of the `job_queue`. -/
structure Job where
  name : JobName
  dow : Int
  at_time : String
  data : JobData
deriving Repr, DecidableEq

/-- The jobs `schedule_sport_jobs` creates for `uid` (bot.py lines
774-786): one per row of `SELECT s.dow, s.at_time, t.name FROM
sport_schedule s JOIN sport_types t ON s.type_id=t.id WHERE s.user_id=?`. -/
def sportJobsFor (db : DB) (uid : Int) : List Job :=
  ((db.sport_schedule.filter (fun s => s.user_id == uid)).map (fun s =>
    (db.sport_types.filter (fun t => t.id == s.type_id)).map (fun t =>
      { name := JobName.sportRem uid
        dow := s.dow
        at_time := s.at_time
        data := JobData.remind uid
          ("🏋️ Напоминание: " ++ t.name ++ " сегодня в " ++ s.at_time) : Job }))).flatten

/-- `schedule_sport_jobs` (bot.py lines 771-786): drop every job named
`sport_rem_{uid}`, then add one job per schedule row. -/
def schedule_sport_jobs (jq : List Job) (db : DB) (uid : Int) : List Job :=
  jq.filter (fun j => !(j.name == JobName.sportRem uid)) ++ sportJobsFor db uid

/-- The single weekly-report job (bot.py lines 792-798): Sunday
(`days=(6,)`) at `WEEKLY_HOUR`:00. -/
def weeklyJobFor (uid : Int) : Job :=
  { name := JobName.weekly uid
    dow := 6
    at_time := "20:00"
    data := JobData.weeklyReport uid }

/-- `schedule_weekly_report` (bot.py lines 788-798): drop every job named
`weekly_{uid}`, then add the one weekly job. -/
def schedule_weekly_report (jq : List Job) (uid : Int) : List Job :=
  jq.filter (fun j => !(j.name == JobName.weekly uid)) ++ [weeklyJobFor uid]

/-! ## Points-ledger lemmas -/

lemma find?_bump (l : List (Int × Int)) (uid pts : Int) :
    (l.map (fun r => if r.1 == uid then (r.1, r.2 + pts) else r)).find?
        (fun r => r.1 == uid)
      = (l.find? (fun r => r.1 == uid)).map (fun r => (r.1, r.2 + pts)) := by
  induction l with
  | nil => rfl
  | cons a t ih =>
    obtain ⟨a1, a2⟩ := a
    by_cases hab : a1 = uid
    · subst hab
      simp only [List.map_cons, beq_self_eq_true, if_true]
      have h1 : List.find? (fun r : Int × Int => r.1 == a1)
          ((a1, a2 + pts) ::
            List.map (fun r => if (r.1 == a1) = true then (r.1, r.2 + pts) else r) t)
          = some (a1, a2 + pts) := List.find?_cons_of_pos _ (by simp)
      have h2 : List.find? (fun r : Int × Int => r.1 == a1) ((a1, a2) :: t)
          = some (a1, a2) := List.find?_cons_of_pos _ (by simp)
      rw [h1, h2]; rfl
    · have hb : (a1 == uid) = false := by simp [hab]
      simp only [List.map_cons, hb, Bool.false_eq_true, if_false]
      rw [List.find?_cons_of_neg _ (by simp [hab]),
        List.find?_cons_of_neg _ (by simp [hab]), ih]

lemma any_bump (l : List (Int × Int)) (u uid pts : Int) :
    (l.map (fun r => if r.1 == u then (r.1, r.2 + pts) else r)).any
        (fun r => r.1 == uid)
      = l.any (fun r => r.1 == uid) := by
  induction l with
  | nil => rfl
  | cons a t ih =>
    simp only [List.map_cons, List.any_cons, ih]
    split <;> rfl

lemma hasPointsRow_add_points (db : DB) (u uid pts : Int) :
    hasPointsRow (add_points db u pts) uid ↔ hasPointsRow db uid := by
  unfold hasPointsRow add_points
  rw [any_bump]

lemma get_points_add_points (db : DB) (uid pts : Int) (h : hasPointsRow db uid) :
    get_points (add_points db uid pts) uid = get_points db uid + pts := by
  unfold hasPointsRow at h
  unfold get_points add_points
  rw [find?_bump]
  cases hf : db.points.find? (fun r => r.1 == uid) with
  | none =>
    rw [List.find?_eq_none] at hf
    rw [List.any_eq_true] at h
    obtain ⟨r, hr, hpr⟩ := h
    exact absurd hpr (hf r hr)
  | some r => simp

lemma get_points_foldl (uid : Int) (l : List Int) : ∀ db : DB, hasPointsRow db uid →
    hasPointsRow (l.foldl (fun d p => add_points d uid p) db) uid ∧
    get_points (l.foldl (fun d p => add_points d uid p) db) uid
      = get_points db uid + l.sum := by
  induction l with
  | nil => intro db h; exact ⟨h, by simp⟩
  | cons a t ih =>
    intro db h
    have h1 : hasPointsRow (add_points db uid a) uid :=
      (hasPointsRow_add_points db uid uid a).mpr h
    obtain ⟨hh, he⟩ := ih (add_points db uid a) h1
    refine ⟨by simpa using hh, ?_⟩
    simp only [List.foldl_cons, List.sum_cons]
    rw [he, get_points_add_points db uid a h]
    ring

lemma ensure_user_fresh (uid : Int) :
    hasPointsRow (ensure_user emptyDB uid) uid ∧
    get_points (ensure_user emptyDB uid) uid = 0 := by
  unfold ensure_user emptyDB hasPointsRow get_points
  simp [List.find?]

/-- C4: starting from a freshly created user, any sequence of positive
`add_points` awards leaves `get_points` equal to the sum of the awarded
amounts, and the balance after any initial segment of the sequence never exceeds
the final balance (non-decreasing). -/
theorem points_balance_sum_of_awards (uid : Int) (incs : List Int)
    (hpos : ∀ p ∈ incs, 0 < p) :
    get_points (incs.foldl (fun d p => add_points d uid p)
        (ensure_user emptyDB uid)) uid = incs.sum
    ∧ ∀ l1 l2, incs = l1 ++ l2 →
        get_points (l1.foldl (fun d p => add_points d uid p)
            (ensure_user emptyDB uid)) uid
          ≤ get_points (incs.foldl (fun d p => add_points d uid p)
              (ensure_user emptyDB uid)) uid := by
  obtain ⟨hrow, hzero⟩ := ensure_user_fresh uid
  obtain ⟨hrow1, heq1⟩ := get_points_foldl uid incs (ensure_user emptyDB uid) hrow
  constructor
  · rw [heq1, hzero]; ring
  · intro l1 l2 hsplit
    subst hsplit
    obtain ⟨hrowl1, heql1⟩ := get_points_foldl uid l1 (ensure_user emptyDB uid) hrow
    have hsum2 : 0 ≤ l2.sum := by
      apply List.sum_nonneg
      intro x hx
      exact le_of_lt (hpos x (List.mem_append_right l1 hx))
    rw [heq1, heql1, hzero, List.sum_append]
    omega

/-- Witness for `points_balance_sum_of_awards` at `uid = 1`,
`incs = [2, 10, 2]`. -/
theorem points_balance_sum_of_awards_witness :
    get_points ([2, 10, 2].foldl (fun d p => add_points d 1 p)
        (ensure_user emptyDB 1)) 1 = ([2, 10, 2] : List Int).sum
    ∧ ∀ l1 l2, ([2, 10, 2] : List Int) = l1 ++ l2 →
        get_points (l1.foldl (fun d p => add_points d 1 p)
            (ensure_user emptyDB 1)) 1
          ≤ get_points ([2, 10, 2].foldl (fun d p => add_points d 1 p)
              (ensure_user emptyDB 1)) 1 :=
  points_balance_sum_of_awards 1 [2, 10, 2] (by decide)

/-- C5, counterexample: `add_points` performs no validation — awarding
`-5` to a fresh user (balance `0`) is not rejected and changes the
balance to `-5`. -/
theorem add_points_accepts_nonpositive :
    get_points (ensure_user emptyDB 1) 1 = 0 ∧
    get_points (add_points (ensure_user emptyDB 1) 1 (-5)) 1 = -5 := by
  decide

/-- C5, amended: `add_points` applies any integer delta, positive or
not, to an existing balance row; the program itself only ever awards the
positive constants `POINTS_TRAIN` and `POINTS_SALE`. -/
theorem add_points_applies_any_delta (db : DB) (uid pts : Int)
    (h : hasPointsRow db uid) :
    get_points (add_points db uid pts) uid = get_points db uid + pts
    ∧ 0 < POINTS_TRAIN ∧ 0 < POINTS_SALE :=
  ⟨get_points_add_points db uid pts h, by decide, by decide⟩

/-- Witness for `add_points_applies_any_delta` at a fresh user and
delta `-5`. -/
theorem add_points_applies_any_delta_witness :
    hasPointsRow (ensure_user emptyDB 1) 1 ∧
    (get_points (add_points (ensure_user emptyDB 1) 1 (-5)) 1
        = get_points (ensure_user emptyDB 1) 1 + (-5)
      ∧ 0 < POINTS_TRAIN ∧ 0 < POINTS_SALE) :=
  ⟨by decide, add_points_applies_any_delta (ensure_user emptyDB 1) 1 (-5) (by decide)⟩

/-- C9: the `points` field of `collect_stats` is `get_points(uid)`,
independent of the window length and of the clock, so the 7-day and
30-day cards always show the same points number. -/
theorem collect_stats_points_window_independent
    (db : DB) (uid d1 d2 now1 now2 : Int) :
    (collect_stats db uid d1 now1).points = (collect_stats db uid d2 now2).points :=
  rfl

/-! ## Goal-evaluation lemmas -/

lemma mem_evalGoals_eligible {db : DB} {uid now : Int} {g : Goal} :
    g ∈ (evalGoals db uid now).1 ↔
      g ∈ db.goals ∧ (g.user_id == uid) = true ∧ goalActive g now = true
        ∧ goalOk db uid g = true := by
  simp only [evalGoals, List.mem_filter]
  tauto

lemma mem_evalGoals_pending {db : DB} {uid now : Int} {g : Goal}
    {m : List String} :
    (g, m) ∈ (evalGoals db uid now).2 ↔
      g ∈ db.goals ∧ (g.user_id == uid) = true ∧ goalActive g now = true
        ∧ goalOk db uid g = false ∧ m = goalMiss db uid g := by
  simp only [evalGoals, List.mem_map, List.mem_filter]
  constructor
  · rintro ⟨a, ⟨⟨⟨ha1, ha2⟩, ha3⟩, ha4⟩, heq⟩
    injection heq with h1 h2
    subst h1
    exact ⟨ha1, ha2, ha3, by simpa using ha4, h2.symm⟩
  · rintro ⟨h1, h2, h3, h4, h5⟩
    exact ⟨g, ⟨⟨⟨h1, h2⟩, h3⟩, by simp [h4]⟩, by rw [h5]⟩

/-- C3: `claim` never reports the same goal both as eligible and as
pending, and a goal evaluated strictly later than `deadline + 1 day` is
reported in neither list. -/
theorem claim_lists_disjoint_and_expired_excluded
    (db : DB) (uid now : Int) (g : Goal) :
    ¬(g ∈ (evalGoals db uid now).1 ∧ ∃ m, (g, m) ∈ (evalGoals db uid now).2)
    ∧ (g.deadline + daySecs < now →
        g ∉ (evalGoals db uid now).1 ∧ ∀ m, (g, m) ∉ (evalGoals db uid now).2) := by
  constructor
  · rintro ⟨h1, m, h2⟩
    have hok := (mem_evalGoals_eligible.mp h1).2.2.2
    have hnok := (mem_evalGoals_pending.mp h2).2.2.2.1
    rw [hok] at hnok
    exact absurd hnok (by simp)
  · intro hexp
    have hact : goalActive g now = false := by
      simp [goalActive, hexp]
    constructor
    · intro h1
      have := (mem_evalGoals_eligible.mp h1).2.2.1
      rw [hact] at this
      exact Bool.false_ne_true this
    · intro m h2
      have := (mem_evalGoals_pending.mp h2).2.2.1
      rw [hact] at this
      exact Bool.false_ne_true this

/-- Witness for the expiry part of
`claim_lists_disjoint_and_expired_excluded`: a goal with deadline `100`
evaluated at `100 + daySecs + 1`. -/
theorem claim_expired_excluded_witness :
    (⟨1, 1, "g", "r", 0, 0, 0, 0, 0, 100, 0⟩ : Goal) ∉
        (evalGoals ⟨[(1, 0)], [(1, 0)], [], [], [],
          [⟨1, 1, "g", "r", 0, 0, 0, 0, 0, 100, 0⟩], [], []⟩ 1 (100 + daySecs + 1)).1
    ∧ ∀ m, ((⟨1, 1, "g", "r", 0, 0, 0, 0, 0, 100, 0⟩ : Goal), m) ∉
        (evalGoals ⟨[(1, 0)], [(1, 0)], [], [], [],
          [⟨1, 1, "g", "r", 0, 0, 0, 0, 0, 100, 0⟩], [], []⟩ 1 (100 + daySecs + 1)).2 :=
  (claim_lists_disjoint_and_expired_excluded _ 1 (100 + daySecs + 1) _).2 (by decide)

/-! ## Scheduler lemmas -/

lemma filter_not_filter {α : Type} (p : α → Bool) (l : List α) :
    (l.filter (fun a => !(p a))).filter p = [] := by
  induction l with
  | nil => rfl
  | cons a t ih => cases hpa : p a <;> simp [List.filter_cons, hpa, ih]

lemma filter_filter_self {α : Type} (p : α → Bool) (l : List α) :
    (l.filter p).filter p = l.filter p := by
  induction l with
  | nil => rfl
  | cons a t ih => cases hpa : p a <;> simp [List.filter_cons, hpa, ih]

lemma sportJobsFor_names (db : DB) (uid : Int) :
    ∀ j ∈ sportJobsFor db uid, j.name = JobName.sportRem uid := by
  intro j hj
  simp only [sportJobsFor, List.mem_flatten, List.mem_map] at hj
  obtain ⟨inner, ⟨s, hs, hinner⟩, hj2⟩ := hj
  subst hinner
  simp only [List.mem_map] at hj2
  obtain ⟨t, ht, hjt⟩ := hj2
  subst hjt
  rfl

/-- C7: registration is a full replace per `(user, kind)`: after
`schedule_sport_jobs` the jobs named `sport_rem_{uid}` are exactly the
ones generated from the current schedule rows (and all other jobs are
untouched); after `schedule_weekly_report` the jobs named `weekly_{uid}`
are exactly the one fresh weekly job (others untouched).  Applied to the
N-th registration in any sequence, only the last registration's jobs
remain: no duplicates, no leftovers. -/
theorem schedule_reregistration_exact (jq : List Job) (db : DB) (uid : Int) :
    ((schedule_sport_jobs jq db uid).filter
        (fun j => j.name == JobName.sportRem uid) = sportJobsFor db uid)
    ∧ ((schedule_sport_jobs jq db uid).filter
        (fun j => !(j.name == JobName.sportRem uid))
        = jq.filter (fun j => !(j.name == JobName.sportRem uid)))
    ∧ ((schedule_weekly_report jq uid).filter
        (fun j => j.name == JobName.weekly uid) = [weeklyJobFor uid])
    ∧ ((schedule_weekly_report jq uid).filter
        (fun j => !(j.name == JobName.weekly uid))
        = jq.filter (fun j => !(j.name == JobName.weekly uid))) := by
  refine ⟨?_, ?_, ?_, ?_⟩
  · rw [schedule_sport_jobs, List.filter_append,
      filter_not_filter (fun j => j.name == JobName.sportRem uid) jq]
    rw [List.filter_eq_self.mpr]
    · simp
    · intro j hj
      simp [sportJobsFor_names db uid j hj]
  · rw [schedule_sport_jobs, List.filter_append]
    have h2 : (sportJobsFor db uid).filter
        (fun j => !(j.name == JobName.sportRem uid)) = [] := by
      rw [List.filter_eq_nil_iff]
      intro j hj
      simp [sportJobsFor_names db uid j hj]
    rw [h2, List.append_nil, filter_filter_self]
  · rw [schedule_weekly_report, List.filter_append,
      filter_not_filter (fun j => j.name == JobName.weekly uid) jq]
    simp [weeklyJobFor]
  · rw [schedule_weekly_report, List.filter_append]
    have h2 : ([weeklyJobFor uid]).filter
        (fun j => !(j.name == JobName.weekly uid)) = [] := by
      simp [weeklyJobFor]
    rw [h2, List.append_nil, filter_filter_self]

/-! ## C2: eligibility characterization -/

/-- Modelled from the spec: "count of SPIRIT-kind log rows with at least
one non-zero field in window" — the claim's wording.  The code
(`claim`, bot.py lines 740-743) instead requires a strictly *positive*
field; the two differ on rows holding only negative values. -/
def goalSpiritNonzero_spec (db : DB) (uid : Int) (g : Goal) : Int :=
  ((db.log_spirit.filter (fun r => inGoalWindow g uid r.dt r.user_id)).filter
    (fun r => !(r.sleep_hours == 0) || !(r.meditation_min == 0)
      || !(r.reading_min == 0))).length

/-- Goal used by the C2 counterexample: needs one spirit action. -/
def c2Goal : Goal := ⟨1, 1, "цель", "приз", 0, 0, 0, 1, 0, 100, 0⟩

/-- Database of the C2 counterexample: one in-window spirit row whose
only non-zero field is `meditation_min = -5` (the user typed `-5`). -/
def c2DB : DB := ⟨[(1, 0)], [(1, 0)], [], [], [⟨1, 50, 0, -5, 0⟩], [c2Goal], [], []⟩

/-- C2, counterexample: at evaluation instant `100` (within the
deadline), every claim-side measured value meets its threshold — in
particular the spec's "non-zero field" spirit count is `1 ≥ 1` — yet
`claim` reports the goal as pending, not eligible. -/
theorem claim_spirit_nonzero_divergence :
    c2Goal.spirit_min ≤ goalSpiritNonzero_spec c2DB 1 c2Goal
    ∧ c2Goal.sport_min ≤ goalSportCnt c2DB 1 c2Goal
    ∧ c2Goal.business_min ≤ goalBusinessActions c2DB 1 c2Goal
    ∧ c2Goal.sales_min ≤ goalSalesN c2DB 1 c2Goal
    ∧ c2Goal.points_min ≤ get_points c2DB 1
    ∧ goalActive c2Goal 100 = true
    ∧ c2Goal ∉ (evalGoals c2DB 1 100).1
    ∧ (c2Goal, goalMiss c2DB 1 c2Goal) ∈ (evalGoals c2DB 1 100).2 := by
  decide

/-- C2, amended (positive fields instead of non-zero): within the grace
deadline, a goal is eligible iff the five code-measured values (spirit
rows needing a strictly positive field) meet their thresholds; a pending
goal is reported with its shortfall list, which names every unmet
dimension with its current and required values. -/
theorem claim_eligibility_characterization (db : DB) (uid now : Int) (g : Goal)
    (hg : g ∈ db.goals) (hu : g.user_id = uid)
    (hnow : ¬(g.deadline + daySecs < now)) :
    (g ∈ (evalGoals db uid now).1 ↔
      (g.sport_min ≤ goalSportCnt db uid g ∧
       g.business_min ≤ goalBusinessActions db uid g ∧
       g.sales_min ≤ goalSalesN db uid g ∧
       g.spirit_min ≤ goalSpiritN db uid g ∧
       g.points_min ≤ get_points db uid))
    ∧ (goalOk db uid g = false →
        ((g, goalMiss db uid g) ∈ (evalGoals db uid now).2
         ∧ (goalSportCnt db uid g < g.sport_min →
             ("спорт " ++ toString (goalSportCnt db uid g) ++ "/"
               ++ toString g.sport_min) ∈ goalMiss db uid g)
         ∧ (goalBusinessActions db uid g < g.business_min →
             ("бизнес " ++ toString (goalBusinessActions db uid g) ++ "/"
               ++ toString g.business_min) ∈ goalMiss db uid g)
         ∧ (goalSalesN db uid g < g.sales_min →
             ("продажи " ++ toString (goalSalesN db uid g) ++ "/"
               ++ toString g.sales_min) ∈ goalMiss db uid g)
         ∧ (goalSpiritN db uid g < g.spirit_min →
             ("дух " ++ toString (goalSpiritN db uid g) ++ "/"
               ++ toString g.spirit_min) ∈ goalMiss db uid g)
         ∧ (get_points db uid < g.points_min →
             ("очки " ++ toString (get_points db uid) ++ "/"
               ++ toString g.points_min) ∈ goalMiss db uid g))) := by
  have hact : goalActive g now = true := by
    simp [goalActive, hnow]
  constructor
  · rw [mem_evalGoals_eligible]
    simp [hg, hu, hact, goalOk, Bool.and_eq_true, decide_eq_true_eq, and_assoc]
  · intro hnok
    refine ⟨mem_evalGoals_pending.mpr ⟨hg, by simp [hu], hact, hnok, rfl⟩,
      ?_, ?_, ?_, ?_, ?_⟩
    all_goals intro hlt
    all_goals simp [goalMiss, hlt]

/-- Goal used by the witness of `claim_eligibility_characterization`:
needs one sport log; nothing is logged. -/
def c2wGoal : Goal := ⟨1, 1, "w", "r", 1, 0, 0, 0, 0, 100, 0⟩

/-- Database of that witness. -/
def c2wDB : DB := ⟨[(1, 0)], [(1, 0)], [], [], [], [c2wGoal], [], []⟩

/-- Witness for `claim_eligibility_characterization` at `c2wDB`,
`uid = 1`, `now = 0`. -/
theorem claim_eligibility_characterization_witness :
    (c2wGoal ∈ (evalGoals c2wDB 1 0).1 ↔
      (c2wGoal.sport_min ≤ goalSportCnt c2wDB 1 c2wGoal ∧
       c2wGoal.business_min ≤ goalBusinessActions c2wDB 1 c2wGoal ∧
       c2wGoal.sales_min ≤ goalSalesN c2wDB 1 c2wGoal ∧
       c2wGoal.spirit_min ≤ goalSpiritN c2wDB 1 c2wGoal ∧
       c2wGoal.points_min ≤ get_points c2wDB 1))
    ∧ (goalOk c2wDB 1 c2wGoal = false →
        ((c2wGoal, goalMiss c2wDB 1 c2wGoal) ∈ (evalGoals c2wDB 1 0).2
         ∧ (goalSportCnt c2wDB 1 c2wGoal < c2wGoal.sport_min →
             ("спорт " ++ toString (goalSportCnt c2wDB 1 c2wGoal) ++ "/"
               ++ toString c2wGoal.sport_min) ∈ goalMiss c2wDB 1 c2wGoal)
         ∧ (goalBusinessActions c2wDB 1 c2wGoal < c2wGoal.business_min →
             ("бизнес " ++ toString (goalBusinessActions c2wDB 1 c2wGoal) ++ "/"
               ++ toString c2wGoal.business_min) ∈ goalMiss c2wDB 1 c2wGoal)
         ∧ (goalSalesN c2wDB 1 c2wGoal < c2wGoal.sales_min →
             ("продажи " ++ toString (goalSalesN c2wDB 1 c2wGoal) ++ "/"
               ++ toString c2wGoal.sales_min) ∈ goalMiss c2wDB 1 c2wGoal)
         ∧ (goalSpiritN c2wDB 1 c2wGoal < c2wGoal.spirit_min →
             ("дух " ++ toString (goalSpiritN c2wDB 1 c2wGoal) ++ "/"
               ++ toString c2wGoal.spirit_min) ∈ goalMiss c2wDB 1 c2wGoal)
         ∧ (get_points c2wDB 1 < c2wGoal.points_min →
             ("очки " ++ toString (get_points c2wDB 1) ++ "/"
               ++ toString c2wGoal.points_min) ∈ goalMiss c2wDB 1 c2wGoal))) :=
  claim_eligibility_characterization c2wDB 1 0 c2wGoal (by decide) (by decide)
    (by decide)

/-! ## `collect_stats` step lemmas -/

lemma collect_stats_add_points (db : DB) (u p uid days now : Int) :
    collect_stats (add_points db u p) uid days now
      = { collect_stats db uid days now with
            points := get_points (add_points db u p) uid } := rfl

lemma collect_stats_cons_sport (db : DB) (uid days now : Int) (r : SportRow) :
    collect_stats { db with log_sport := r :: db.log_sport } uid days now
      = if r.user_id == uid && (now - days * daySecs) ≤ r.dt then
          { collect_stats db uid days now with
              sport_cnt := (collect_stats db uid days now).sport_cnt + 1 }
        else collect_stats db uid days now := by
  by_cases hc : (r.user_id == uid && decide ((now - days * daySecs) ≤ r.dt)) = true
  · simp only [collect_stats, List.filter_cons, hc, if_true]
    simp [get_points, Int.add_comm]
  · simp only [collect_stats, List.filter_cons, hc, if_false,
      Bool.false_eq_true]
    simp [hc, get_points]

lemma collect_stats_cons_biz (db : DB) (uid days now : Int) (r : BusinessRow) :
    collect_stats { db with log_business := r :: db.log_business } uid days now
      = if r.user_id == uid && (now - days * daySecs) ≤ r.dt then
          { collect_stats db uid days now with
              calls := r.calls + (collect_stats db uid days now).calls
              vis := r.visibility + (collect_stats db uid days now).vis
              sales_n := (if 0 < r.sale_amount then 1 else 0)
                + (collect_stats db uid days now).sales_n
              sales_sum := r.sale_amount + (collect_stats db uid days now).sales_sum
              cash_sum := r.cash_in + (collect_stats db uid days now).cash_sum }
        else collect_stats db uid days now := by
  by_cases hc : (r.user_id == uid && decide ((now - days * daySecs) ≤ r.dt)) = true
  · simp only [collect_stats, List.filter_cons, hc, if_true]
    by_cases hs : (0 : Int) < r.sale_amount
    · simp [hs, get_points, Int.add_comm]
    · simp [hs, get_points, Int.add_comm]
  · simp only [collect_stats, List.filter_cons, hc, if_false,
      Bool.false_eq_true]
    simp [hc, get_points]

lemma collect_stats_cons_spirit (db : DB) (uid days now : Int) (r : SpiritRow) :
    collect_stats { db with log_spirit := r :: db.log_spirit } uid days now
      = if r.user_id == uid && (now - days * daySecs) ≤ r.dt then
          { collect_stats db uid days now with
              sleep := r.sleep_hours + (collect_stats db uid days now).sleep
              med := r.meditation_min + (collect_stats db uid days now).med
              read := r.reading_min + (collect_stats db uid days now).read }
        else collect_stats db uid days now := by
  by_cases hc : (r.user_id == uid && decide ((now - days * daySecs) ≤ r.dt)) = true
  · simp only [collect_stats, List.filter_cons, hc, if_true]
    simp [get_points, Int.add_comm]
  · simp only [collect_stats, List.filter_cons, hc, if_false,
      Bool.false_eq_true]
    simp [hc, get_points]

/-! ## Sale logging lemmas (C6, C10) -/

lemma log_sale_eq (db : DB) (uid now val : Int) :
    log_sale db uid now val
      = if get_sale_threshold db uid ≤ val
        then add_points
          { db with log_business := ⟨uid, now, 0, 0, val, 0⟩ :: db.log_business }
          uid POINTS_SALE
        else { db with log_business := ⟨uid, now, 0, 0, val, 0⟩ :: db.log_business } :=
  rfl

lemma get_points_log_sale (db : DB) (uid now val : Int)
    (hrow : hasPointsRow db uid) :
    get_points (log_sale db uid now val) uid
      = if get_sale_threshold db uid ≤ val
        then get_points db uid + POINTS_SALE
        else get_points db uid := by
  rw [log_sale_eq]
  by_cases h : get_sale_threshold db uid ≤ val
  · rw [if_pos h, if_pos h]
    have hrow2 : hasPointsRow
        { db with log_business := ⟨uid, now, 0, 0, val, 0⟩ :: db.log_business } uid :=
      hrow
    rw [get_points_add_points _ uid POINTS_SALE hrow2]
    rfl
  · rw [if_neg h, if_neg h]
    rfl

/-- C6: with a sale threshold of `100000`, a logged sale of `50000`
increments the windowed sales count and leaves the balance unchanged; a
logged sale of `150000` raises the balance by exactly `10`; in general a
logged sale awards `POINTS_SALE` iff its amount reaches the threshold. -/
theorem sale_logging_threshold_behavior (db : DB) (uid now : Int)
    (hrow : hasPointsRow db uid)
    (hthr : get_sale_threshold db uid = 100000) :
    (∀ days : Int, 0 ≤ days →
      (collect_stats (log_sale db uid now 50000) uid days now).sales_n
        = (collect_stats db uid days now).sales_n + 1)
    ∧ get_points (log_sale db uid now 50000) uid = get_points db uid
    ∧ get_points (log_sale db uid now 150000) uid
        = get_points db uid + POINTS_SALE
    ∧ (∀ amt, get_points (log_sale db uid now amt) uid
          = get_points db uid + POINTS_SALE ↔ get_sale_threshold db uid ≤ amt) := by
  have h50 : ¬ (get_sale_threshold db uid ≤ (50000 : Int)) := by
    rw [hthr]; omega
  refine ⟨?_, ?_, ?_, ?_⟩
  · intro days hdays
    rw [log_sale_eq, if_neg h50, collect_stats_cons_biz]
    rw [if_pos (by simp [daySecs]; omega)]
    simp
    omega
  · rw [get_points_log_sale db uid now 50000 hrow, if_neg h50]
  · rw [get_points_log_sale db uid now 150000 hrow,
      if_pos (by rw [hthr]; omega)]
  · intro amt
    rw [get_points_log_sale db uid now amt hrow]
    by_cases h : get_sale_threshold db uid ≤ amt
    · simp [h]
    · rw [if_neg h]
      simp only [h, iff_false]
      intro habs
      have : POINTS_SALE = 0 := by omega
      exact absurd this (by decide)

/-- Database of the C6 witness: one user with threshold `100000` and
balance `0`. -/
def c6DB : DB := ⟨[(1, 100000)], [(1, 0)], [], [], [], [], [], []⟩

/-- Witness for `sale_logging_threshold_behavior` at `c6DB`, `uid = 1`,
`now = 0`. -/
theorem sale_logging_threshold_behavior_witness :
    (∀ days : Int, 0 ≤ days →
      (collect_stats (log_sale c6DB 1 0 50000) 1 days 0).sales_n
        = (collect_stats c6DB 1 days 0).sales_n + 1)
    ∧ get_points (log_sale c6DB 1 0 50000) 1 = get_points c6DB 1
    ∧ get_points (log_sale c6DB 1 0 150000) 1 = get_points c6DB 1 + POINTS_SALE
    ∧ (∀ amt, get_points (log_sale c6DB 1 0 amt) 1
          = get_points c6DB 1 + POINTS_SALE ↔ get_sale_threshold c6DB 1 ≤ amt) :=
  sale_logging_threshold_behavior c6DB 1 0 (by decide) (by decide)

lemma goalSalesN_add_points (db : DB) (u p uid : Int) (g : Goal) :
    goalSalesN (add_points db u p) uid g = goalSalesN db uid g := rfl

lemma goalSalesN_cons_nonpos_sale (db : DB) (uid now uid2 : Int) (g : Goal) :
    goalSalesN
      { db with log_business := ⟨uid, now, 0, 0, 0, 0⟩ :: db.log_business }
      uid2 g = goalSalesN db uid2 g := by
  unfold goalSalesN
  rw [List.filter_cons]
  by_cases hw : (inGoalWindow g uid2 now uid) = true
  · simp only [hw, if_true, List.filter_cons]
    norm_num
  · simp [hw]

/-- C10: with the default threshold `0`, a logged sale of amount `0`
awards the `POINTS_SALE` reward (`0 >= 0`) yet is counted neither in any
`collect_stats` sales count nor in any goal evaluation's sales count,
since both count only rows with `sale_amount > 0`. -/
theorem zero_sale_awards_points_but_uncounted (db : DB) (uid now : Int)
    (hrow : hasPointsRow db uid)
    (hthr : get_sale_threshold db uid = 0) :
    get_points (log_sale db uid now 0) uid = get_points db uid + POINTS_SALE
    ∧ (∀ days : Int, (collect_stats (log_sale db uid now 0) uid days now).sales_n
        = (collect_stats db uid days now).sales_n)
    ∧ (∀ g : Goal, goalSalesN (log_sale db uid now 0) uid g
        = goalSalesN db uid g) := by
  have h0 : get_sale_threshold db uid ≤ (0 : Int) := by rw [hthr]
  refine ⟨?_, ?_, ?_⟩
  · rw [get_points_log_sale db uid now 0 hrow, if_pos h0]
  · intro days
    rw [log_sale_eq, if_pos h0, collect_stats_add_points]
    rw [collect_stats_cons_biz]
    by_cases hc : ((uid == uid) && decide ((now - days * daySecs) ≤ now)) = true
    · rw [if_pos hc]
      simp
    · rw [if_neg hc]
  · intro g
    rw [log_sale_eq, if_pos h0, goalSalesN_add_points,
      goalSalesN_cons_nonpos_sale]

/-- Database of the C10 witness: one user with the default threshold `0`. -/
def c10DB : DB := ⟨[(1, 0)], [(1, 0)], [], [], [], [], [], []⟩

/-- Witness for `zero_sale_awards_points_but_uncounted` at `c10DB`,
`uid = 1`, `now = 0`. -/
theorem zero_sale_awards_points_but_uncounted_witness :
    get_points (log_sale c10DB 1 0 0) 1 = get_points c10DB 1 + POINTS_SALE
    ∧ (∀ days : Int, (collect_stats (log_sale c10DB 1 0 0) 1 days 0).sales_n
        = (collect_stats c10DB 1 days 0).sales_n)
    ∧ (∀ g : Goal, goalSalesN (log_sale c10DB 1 0 0) 1 g
        = goalSalesN c10DB 1 g) :=
  zero_sale_awards_points_but_uncounted c10DB 1 0 (by decide) (by decide)

/-! ## C8: what `collect_stats` depends on -/

/-- First database of the C8 counterexample: empty logs, balance `0`. -/
def c8DB1 : DB := ⟨[(1, 0)], [(1, 0)], [], [], [], [], [], []⟩

/-- Second database of the C8 counterexample: same (empty) logs,
balance `5`. -/
def c8DB2 : DB := ⟨[(1, 0)], [(1, 5)], [], [], [], [], [], []⟩

/-- C8, counterexample: two databases with identical event-log contents
but different points balances give different `collect_stats` results (the
`points` field differs), so the output is not a function of the log
alone. -/
theorem collect_stats_depends_on_points_table :
    c8DB1.log_sport = c8DB2.log_sport
    ∧ c8DB1.log_business = c8DB2.log_business
    ∧ c8DB1.log_spirit = c8DB2.log_spirit
    ∧ collect_stats c8DB1 1 7 0 ≠ collect_stats c8DB2 1 7 0 := by
  decide

/-- C8, amended: `collect_stats` is a pure function of the three log
tables and the user's points balance — equal logs and equal balance give
identical results (in particular, re-running it on an unchanged database
always yields the same output). -/
theorem collect_stats_pure_function_of_logs_and_points
    (db1 db2 : DB) (uid days now : Int)
    (hs : db1.log_sport = db2.log_sport)
    (hb : db1.log_business = db2.log_business)
    (hp : db1.log_spirit = db2.log_spirit)
    (hpt : get_points db1 uid = get_points db2 uid) :
    collect_stats db1 uid days now = collect_stats db2 uid days now := by
  unfold collect_stats
  rw [hs, hb, hp, hpt]

/-- First database of the C8 witness: empty logs, balance `3`,
threshold `0`. -/
def c8wDB1 : DB := ⟨[(1, 0)], [(1, 3)], [], [], [], [], [], []⟩

/-- Second database of the C8 witness: same logs and balance but a
different configured threshold. -/
def c8wDB2 : DB := ⟨[(1, 999)], [(1, 3)], [], [], [], [], [], []⟩

/-- Witness for `collect_stats_pure_function_of_logs_and_points`:
two databases differing only in the `users` table give identical stats. -/
theorem collect_stats_pure_function_witness :
    collect_stats c8wDB1 1 7 0 = collect_stats c8wDB2 1 7 0 :=
  collect_stats_pure_function_of_logs_and_points c8wDB1 c8wDB2 1 7 0
    rfl rfl rfl rfl

/-! ## C1: `collect_stats` versus the §4.2 reduction -/

/-- Windowed contribution of one event: its `evContribPos` summary when
it belongs to `uid` and `since ≤ dt`, zero otherwise. -/
def eventContribW (uid since : Int) (e : Event) : Summary :=
  if e.user_id == uid && since ≤ e.dt then evContribPos e.kind else Summary.zero

lemma Summary.add_zero (a : Summary) : Summary.add a Summary.zero = a := by
  cases a
  simp [Summary.add, Summary.zero]

lemma Summary.zero_add (a : Summary) : Summary.add Summary.zero a = a := by
  cases a
  simp [Summary.add, Summary.zero]

lemma Summary.add_assoc (a b c : Summary) :
    Summary.add (Summary.add a b) c = Summary.add a (Summary.add b c) := by
  cases a; cases b; cases c
  simp only [Summary.add, Summary.mk.injEq]
  refine ⟨?_, ?_, ?_, ?_, ?_, ?_, ?_, ?_, ?_⟩ <;> ring

lemma summarize_pos_cons (uid since : Int) (e : Event) (evs : List Event) :
    summarize_pos uid since (e :: evs)
      = Summary.add (eventContribW uid since e) (summarize_pos uid since evs) := by
  unfold summarize_pos eventContribW
  rw [List.filter_cons]
  by_cases hc : (e.user_id == uid && decide (since ≤ e.dt)) = true
  · simp [hc]
  · simp [hc, Summary.zero_add]

lemma statsSummary_applyEvent (db : DB) (e : Event) (uid days now : Int) :
    statsSummary (collect_stats (applyEvent db e) uid days now)
      = Summary.add (statsSummary (collect_stats db uid days now))
          (eventContribW uid (now - days * daySecs) e) := by
  obtain ⟨eu, edt, k⟩ := e
  cases k with
  | sport tid =>
    show statsSummary (collect_stats (add_points
        { db with log_sport := ⟨eu, edt, tid⟩ :: db.log_sport }
        eu POINTS_TRAIN) uid days now) = _
    rw [collect_stats_add_points, collect_stats_cons_sport]
    unfold eventContribW
    by_cases hc : ((eu == uid) && decide ((now - days * daySecs) ≤ edt)) = true
    · rw [if_pos hc, if_pos hc]
      simp [statsSummary, Summary.add, evContribPos, evContribSpec, Summary.zero]
    · rw [if_neg hc, if_neg hc, Summary.add_zero]
      rfl
  | call =>
    show statsSummary (collect_stats
        { db with log_business := ⟨eu, edt, 1, 0, 0, 0⟩ :: db.log_business }
        uid days now) = _
    rw [collect_stats_cons_biz]
    unfold eventContribW
    by_cases hc : ((eu == uid) && decide ((now - days * daySecs) ≤ edt)) = true
    · rw [if_pos hc, if_pos hc]
      simp [statsSummary, Summary.add, evContribPos, evContribSpec, Summary.zero,
        add_comm]
    · rw [if_neg hc, if_neg hc, Summary.add_zero]
  | visibility =>
    show statsSummary (collect_stats
        { db with log_business := ⟨eu, edt, 0, 1, 0, 0⟩ :: db.log_business }
        uid days now) = _
    rw [collect_stats_cons_biz]
    unfold eventContribW
    by_cases hc : ((eu == uid) && decide ((now - days * daySecs) ≤ edt)) = true
    · rw [if_pos hc, if_pos hc]
      simp [statsSummary, Summary.add, evContribPos, evContribSpec, Summary.zero,
        add_comm]
    · rw [if_neg hc, if_neg hc, Summary.add_zero]
  | sale amt =>
    show statsSummary (collect_stats (log_sale db eu edt amt) uid days now) = _
    rw [log_sale_eq]
    unfold eventContribW
    have hrest : statsSummary (collect_stats
        { db with log_business := ⟨eu, edt, 0, 0, amt, 0⟩ :: db.log_business }
        uid days now)
        = Summary.add (statsSummary (collect_stats db uid days now))
          (if (eu == uid) && decide ((now - days * daySecs) ≤ edt)
            then evContribPos (EvKind.sale amt) else Summary.zero) := by
      rw [collect_stats_cons_biz]
      by_cases hc : ((eu == uid) && decide ((now - days * daySecs) ≤ edt)) = true
      · rw [if_pos hc, if_pos hc]
        simp [statsSummary, Summary.add, evContribPos, evContribSpec, Summary.zero,
          add_comm]
      · rw [if_neg hc, if_neg hc, Summary.add_zero]
    by_cases ht : get_sale_threshold db eu ≤ amt
    · rw [if_pos ht, collect_stats_add_points]
      exact hrest
    · rw [if_neg ht]
      exact hrest
  | cash amt =>
    show statsSummary (collect_stats
        { db with log_business := ⟨eu, edt, 0, 0, 0, amt⟩ :: db.log_business }
        uid days now) = _
    rw [collect_stats_cons_biz]
    unfold eventContribW
    by_cases hc : ((eu == uid) && decide ((now - days * daySecs) ≤ edt)) = true
    · rw [if_pos hc, if_pos hc]
      simp [statsSummary, Summary.add, evContribPos, evContribSpec, Summary.zero,
        add_comm]
    · rw [if_neg hc, if_neg hc, Summary.add_zero]
  | sleep h =>
    show statsSummary (collect_stats
        { db with log_spirit := ⟨eu, edt, h, 0, 0⟩ :: db.log_spirit }
        uid days now) = _
    rw [collect_stats_cons_spirit]
    unfold eventContribW
    by_cases hc : ((eu == uid) && decide ((now - days * daySecs) ≤ edt)) = true
    · rw [if_pos hc, if_pos hc]
      simp [statsSummary, Summary.add, evContribPos, evContribSpec, Summary.zero,
        add_comm]
    · rw [if_neg hc, if_neg hc, Summary.add_zero]
  | meditation m =>
    show statsSummary (collect_stats
        { db with log_spirit := ⟨eu, edt, 0, m, 0⟩ :: db.log_spirit }
        uid days now) = _
    rw [collect_stats_cons_spirit]
    unfold eventContribW
    by_cases hc : ((eu == uid) && decide ((now - days * daySecs) ≤ edt)) = true
    · rw [if_pos hc, if_pos hc]
      simp [statsSummary, Summary.add, evContribPos, evContribSpec, Summary.zero,
        add_comm]
    · rw [if_neg hc, if_neg hc, Summary.add_zero]
  | reading m =>
    show statsSummary (collect_stats
        { db with log_spirit := ⟨eu, edt, 0, 0, m⟩ :: db.log_spirit }
        uid days now) = _
    rw [collect_stats_cons_spirit]
    unfold eventContribW
    by_cases hc : ((eu == uid) && decide ((now - days * daySecs) ≤ edt)) = true
    · rw [if_pos hc, if_pos hc]
      simp [statsSummary, Summary.add, evContribPos, evContribSpec, Summary.zero,
        add_comm]
    · rw [if_neg hc, if_neg hc, Summary.add_zero]

lemma statsSummary_foldl (uid days now : Int) (evs : List Event) : ∀ db : DB,
    statsSummary (collect_stats (evs.foldl applyEvent db) uid days now)
      = Summary.add (statsSummary (collect_stats db uid days now))
          (summarize_pos uid (now - days * daySecs) evs) := by
  induction evs with
  | nil =>
    intro db
    rw [List.foldl_nil]
    exact (Summary.add_zero _).symm
  | cons e t ih =>
    intro db
    rw [List.foldl_cons, ih (applyEvent db e), statsSummary_applyEvent,
      summarize_pos_cons, Summary.add_assoc]

/-- C1, amended (sales counted only when positive): over any database
whose event logs are generated by the program's own logging handlers,
the nine aggregate fields of `collect_stats(uid, W)` equal the §4.2
reduction — with `sale_count` counting positive-amount sales — applied
to exactly the events of `uid` with `timestamp >= now - W` (boundary
inclusive); in particular an empty event list yields the all-zero
summary. -/
theorem collect_stats_eq_reduction_posSales
    (users pts : List (Int × Int)) (goals : List Goal)
    (sts : List SportType) (sch : List SchedRow)
    (evs : List Event) (uid days now : Int) :
    statsSummary (collect_stats
        (evs.foldl applyEvent ⟨users, pts, [], [], [], goals, sts, sch⟩)
        uid days now)
      = summarize_pos uid (now - days * daySecs) evs := by
  rw [statsSummary_foldl]
  have hz : statsSummary (collect_stats
      ⟨users, pts, [], [], [], goals, sts, sch⟩ uid days now) = Summary.zero := rfl
  rw [hz, Summary.zero_add]

/-- Database of the C1 counterexample: one fresh user with the default
threshold. -/
def c1DB : DB := ⟨[(1, 0)], [(1, 0)], [], [], [], [], [], []⟩

/-- The C1 counterexample event: a SALE of amount `0` at instant `5`. -/
def c1Ev : Event := ⟨1, 5, EvKind.sale 0⟩

/-- C1, counterexample: a zero-amount SALE lies inside the window, is an
occurrence of SALE per the spec's reduction (`sale_count = 1`), yet
`collect_stats` reports `sales_n = 0` — the code counts only
positive-amount sales. -/
theorem collect_stats_zero_sale_not_counted :
    (5 - 7 * daySecs ≤ c1Ev.dt)
    ∧ (statsSummary (collect_stats ([c1Ev].foldl applyEvent c1DB) 1 7 5)).sale_count = 0
    ∧ (summarize_spec 1 (5 - 7 * daySecs) [c1Ev]).sale_count = 1 := by
  decide

end SputnikBot
